import Mathlib

/-!
Shallow embedding of the doomutils WAD archive tool (WADManager.py and
LumpParser.py).  Byte strings are modelled as `List Nat`, Python `str`
names as `String`, and every fallible operation (a raised exception in
Python) returns `Option`, with `none` standing for the raised error.
-/

set_option autoImplicit false

namespace DoomUtils

/-! ## Byte-level helpers shared by both modules -/

/-- Code points of a Python `str` (used before `encode("ascii")`). -/
def strBytes (s : String) : List Nat := s.data.map Char.toNat

/-- Python `bytes.decode("ascii")`: succeeds only when every byte is < 128. -/
def decodeAscii (b : List Nat) : Option String :=
  if b.all (fun x => x < 128) then some (String.mk (b.map Char.ofNat)) else none

/-- Python `bytes.rstrip(b"\x00")`: drop trailing zero bytes. -/
def rstrip0 (b : List Nat) : List Nat :=
  (b.reverse.dropWhile (fun x => x = 0)).reverse

/-- Python `struct.pack("<H", n)`: two little-endian bytes, error when out of range. -/
def pack16 (n : Nat) : Option (List Nat) :=
  if n < 65536 then some [n % 256, n / 256] else none

/-- Python `struct.pack("<I", n)`: four little-endian bytes, error when out of range. -/
def pack32 (n : Nat) : Option (List Nat) :=
  if n < 4294967296 then
    some [n % 256, n / 256 % 256, n / 65536 % 256, n / 16777216 % 256]
  else none

/-- Little-endian uint32 read from a 4-byte slice (missing bytes read as 0,
which never happens on the slices the callers pass). -/
def unpack32 (b : List Nat) : Nat :=
  b.getD 0 0 + 256 * b.getD 1 0 + 65536 * b.getD 2 0 + 16777216 * b.getD 3 0

/-- Little-endian uint16 field at byte offset `i` of a record chunk. -/
def u16at (b : List Nat) (i : Nat) : Nat :=
  b.getD i 0 + 256 * b.getD (i + 1) 0

/-- Reinterpret a uint16 value as a signed 16-bit integer (`struct` format `h`). -/
def toInt16 (n : Nat) : Int :=
  if n < 32768 then (n : Int) else (n : Int) - 65536

/-- Signed 16-bit field at byte offset `i` of a record chunk. -/
def s16at (b : List Nat) (i : Nat) : Int := toInt16 (u16at b i)

/-! ## WADManager: the in-memory lump list -/

/-- One directory entry plus payload, as held in `WADManager.lumps`.
The on-disk offset/size metadata is never consulted by `save`, so the
embedding keeps only the fields `save` and the edit operations use. -/
structure Lump where
  name : String
  data : List Nat
deriving DecidableEq, Repr

/-- `WADManager.find_lump_index`: index of the first lump with the given name. -/
def findLumpIndex : List Lump → String → Option Nat
  | [], _ => none
  | l :: ls, n =>
    if l.name = n then some 0 else (findLumpIndex ls n).map (fun i => i + 1)

/-- Python `list.pop(i)` for a non-negative index: `none` models `IndexError`. -/
def popAt (l : List Lump) (i : Nat) : Option (List Lump) :=
  if i < l.length then some (l.take i ++ l.drop (i + 1)) else none

/-- `WADManager.add_lump`: append, rejecting names longer than 8 characters. -/
def addLump (l : List Lump) (n : String) (d : List Nat) : Option (List Lump) :=
  if 8 < n.length then none else some (l ++ [⟨n, d⟩])

/-- Python `list.insert(i, x)` (clamps an index past the end, like Python). -/
def insertPy (l : List Lump) (i : Nat) (x : Lump) : List Lump :=
  l.take i ++ x :: l.drop i

/-- `WADManager.insert_lump`: insert at an index, with the name-length check. -/
def insertLump (l : List Lump) (i : Nat) (n : String) (d : List Nat) :
    Option (List Lump) :=
  if 8 < n.length then none else some (insertPy l i ⟨n, d⟩)

/-- `WADManager.ensure_markers`.  The two `pop` calls and the two conditional
`add_lump` calls follow the Python control flow exactly; note the second
`pop` reuses the start index computed before the first `pop` shifted the
list. -/
def ensureMarkers (lumps : List Lump) (startM endM : String) :
    Option (List Lump × Nat × Nat) := do
  let s0 := findLumpIndex lumps startM
  let e0 := findLumpIndex lumps endM
  let (l1, s1, e1) ←
    match s0, e0 with
    | some s, some e =>
      if e < s then do
        let la ← popAt lumps e
        let lb ← popAt la s
        pure (lb, (none : Option Nat), (none : Option Nat))
      else pure (lumps, some s, some e)
    | s, e => pure (lumps, s, e)
  let (l2, si) ←
    match s1 with
    | some s => pure (l1, s)
    | none => do
      let la ← addLump l1 startM []
      pure (la, la.length - 1)
  let (l3, ei) ←
    match e1 with
    | some e => pure (l2, e)
    | none => do
      let la ← addLump l2 endM []
      pure (la, la.length - 1)
  pure (l3, si, ei)

/-- `WADManager.validate_sprite`: at least 8 bytes, and at least
`8 + width*height` bytes where width/height are the first two
little-endian uint16 fields. -/
def validateSprite (d : List Nat) : Bool :=
  if d.length < 8 then false
  else
    let width := d.getD 0 0 + 256 * d.getD 1 0
    let height := d.getD 2 0 + 256 * d.getD 3 0
    decide (8 + width * height ≤ d.length)

/-- `WADManager.import_sprite` (the later definition in the file, which
overrides the earlier one): validate, check the name length, ensure the
S_START/S_END markers, then insert before the end marker. -/
def importSprite (lumps : List Lump) (n : String) (d : List Nat) :
    Option (List Lump) :=
  if validateSprite d = false then none
  else if 8 < n.length then none
  else do
    let (l1, _si, ei) ← ensureMarkers lumps "S_START" "S_END"
    insertLump l1 ei n d

/-- `WADManager.create_empty_map`: the map marker followed by the ten
fixed geometry lumps, all empty. -/
def createEmptyMap (lumps : List Lump) (mapName : String) :
    Option (List Lump) :=
  if 8 < mapName.length then none
  else do
    let mapLumps := ["THINGS", "LINEDEFS", "SIDEDEFS", "VERTEXES", "SEGS",
      "SSECTORS", "NODES", "SECTORS", "REJECT", "BLOCKMAP"]
    let l1 ← addLump lumps mapName []
    mapLumps.foldlM (fun l n => addLump l n []) l1

/-- `WADManager.create_empty_wad`, the branch taken by `__init__` when the
file does not exist: header type set to `b"PWAD"`, then `MAP01`, the flat
markers, the texture markers and the sprite markers. -/
def createEmptyWad : Option (List Nat × List Lump) := do
  let l1 ← createEmptyMap [] "MAP01"
  let l2 ← ["F_START", "F_END"].foldlM (fun l n => addLump l n []) l1
  let l3 ← ["T_START", "T_END"].foldlM (fun l n => addLump l n []) l2
  let l4 ← ["S_START", "S_END"].foldlM (fun l n => addLump l n []) l3
  pure (strBytes "PWAD", l4)

/-! ## WADManager save / read: the on-disk byte layout

A file is a `List Nat` of bytes.  `writeAt` models writing a byte string
at an absolute position of a seekable file opened with mode `"wb"`:
positions beyond the current end are zero-filled (the bytes of a seek
hole), and existing bytes are overwritten. -/

/-- Write `b` at absolute position `pos` of `file`, zero-filling any gap. -/
def writeAt (file : List Nat) (pos : Nat) (b : List Nat) : List Nat :=
  (file.take pos ++ List.replicate (pos - file.length) 0) ++ b ++
    file.drop (pos + b.length)

/-- `lump["name"].ljust(8, "\x00").encode("ascii")` from `WADManager.save`:
pad the name to 8 characters with NULs, then ASCII-encode. -/
def nameEnc (s : String) : Option (List Nat) :=
  let b := strBytes s
  if b.all (fun x => x < 128) then some (b ++ List.replicate (8 - b.length) 0)
  else none

/-- `WADManager.save`: write the 4-byte type and the packed
`(lump_count, 12 + 16*lump_count)` header, then for each lump seek to the
running `lump_offset` (which starts at `12 + 16*lump_count`) and write its
payload while accumulating the directory, and finally write the directory
at the file position left after the last payload write. -/
def saveWad (wtype : List Nat) (lumps : List Lump) : Option (List Nat) := do
  let cnt ← pack32 lumps.length
  let dofs ← pack32 (12 + 16 * lumps.length)
  let f0 := writeAt [] 0 wtype
  let f1 := writeAt f0 wtype.length (cnt ++ dofs)
  let pos0 := wtype.length + (cnt ++ dofs).length
  let (f2, pos1, _, dir) ← lumps.foldlM
    (fun (st : List Nat × Nat × Nat × List (Nat × Nat × List Nat)) lump => do
      let (f, _pos, lump_offset, dir) := st
      let nb ← nameEnc lump.name
      let f' := writeAt f lump_offset lump.data
      pure (f', lump_offset + lump.data.length,
            lump_offset + lump.data.length,
            dir ++ [(lump_offset, lump.data.length, nb)]))
    (f1, pos0, 12 + 16 * lumps.length, [])
  let (f3, _) ← dir.foldlM
    (fun (st : List Nat × Nat) entry => do
      let (f, pos) := st
      let (off, size, nb) := entry
      let ob ← pack32 off
      let sb ← pack32 size
      let e := ob ++ sb ++ nb
      pure (writeAt f pos e, pos + e.length))
    (f2, pos1)
  pure f3

/-- `WADManager._read_wad`: read the 4-byte type and the two header
uint32s, seek to the recorded directory offset, read `count` 16-byte
directory entries (offset, size, NUL-stripped ASCII name), then read each
lump's payload at its recorded offset (a read past end-of-file returns
the bytes that exist, like Python `f.read`). -/
def readWad (file : List Nat) : Option (List Nat × List Lump) := do
  let wtype := file.take 4
  let hb := (file.drop 4).take 8
  if hb.length = 8 then do
    let count := unpack32 (hb.take 4)
    let dirofs := unpack32 (hb.drop 4)
    let dir ← (List.range count).mapM (fun i => do
      let rb := (file.drop (dirofs + 16 * i)).take 8
      if rb.length = 8 then do
        let off := unpack32 (rb.take 4)
        let size := unpack32 (rb.drop 4)
        let nm ← decodeAscii (rstrip0 ((file.drop (dirofs + 16 * i + 8)).take 8))
        pure (nm, off, size)
      else none)
    let lumps := dir.map
      (fun e => Lump.mk e.1 ((file.drop e.2.1).take e.2.2))
    pure (wtype, lumps)
  else none

/-! ## LumpParser: record types

One structure per namedtuple of LumpParser.py, with the field types the
`struct` format strings give them (`h` fields become `Int`, `H` and `I`
fields become `Nat`, `8s` string fields become `String` after the
NUL-strip and ASCII decode done at parse time). -/

structure Thing where
  x : Int
  y : Int
  angle : Nat
  type : Nat
  flags : Nat
deriving DecidableEq, Repr

structure Vertex where
  x : Int
  y : Int
deriving DecidableEq, Repr

structure Linedef where
  start : Nat
  end_ : Nat
  flags : Nat
  special : Nat
  tag : Nat
  right_side : Nat
  left_side : Nat
deriving DecidableEq, Repr

structure Sector where
  floor_height : Int
  ceiling_height : Int
  floor_tex : String
  ceiling_tex : String
  light : Nat
  special : Nat
  tag : Nat
deriving DecidableEq, Repr

structure Sidedef where
  x_off : Int
  y_off : Int
  upper_tex : String
  lower_tex : String
  middle_tex : String
  sector : Nat
deriving DecidableEq, Repr

structure Seg where
  start_vertex : Nat
  end_vertex : Nat
  angle : Nat
  line_def : Nat
  side : Nat
  direction : Nat
  offset : Nat
deriving DecidableEq, Repr

structure Subsector where
  seg_count : Nat
  first_seg : Nat
deriving DecidableEq, Repr

structure Node where
  x : Int
  y : Int
  dx : Int
  dy : Int
  right_bbox_top : Int
  right_bbox_bottom : Int
  right_bbox_left : Int
  right_bbox_right : Int
  left_bbox_top : Int
  left_bbox_bottom : Int
  left_bbox_left : Int
  left_bbox_right : Int
  right_child : Nat
  left_child : Nat
deriving DecidableEq, Repr

structure Patch where
  originx : Nat
  originy : Nat
  patch_num : Nat
  stepdir : Nat
  colormap : Nat
deriving DecidableEq, Repr

structure Texture where
  name : String
  width : Nat
  height : Nat
  patches : List Patch
deriving DecidableEq, Repr

/-! ## LumpParser: fixed-size record parsers

Every fixed-record parser runs the Python loop
`for i in range(0, len(data), SIZE): struct.unpack(fmt, data[i:i+SIZE])`.
`parseFix` embeds that loop: it consumes `k`-byte chunks, and a short
final chunk makes the `struct.unpack` call fail (`struct.error`), which
the embedding renders as `none`.  The fuel argument is the byte length,
which bounds the number of iterations. -/

def parseFix {α : Type} (k : Nat) (mk : List Nat → Option α) :
    Nat → List Nat → Option (List α)
  | _, [] => some []
  | 0, _ :: _ => none
  | fuel + 1, x :: xs =>
    let d := x :: xs
    let chunk := d.take k
    if chunk.length = k then
      match mk chunk with
      | none => none
      | some r =>
        match parseFix k mk fuel (d.drop k) with
        | none => none
        | some rest => some (r :: rest)
    else none

/-- `struct.unpack("<hhHHH", chunk)` of `ThingsParser.parse`. -/
def mkThing (c : List Nat) : Option Thing :=
  some ⟨s16at c 0, s16at c 2, u16at c 4, u16at c 6, u16at c 8⟩

/-- `ThingsParser.parse` (RECORD_SIZE 10, multiple-of-size check first). -/
def thingsParse (d : List Nat) : Option (List Thing) :=
  if d.length % 10 ≠ 0 then none else parseFix 10 mkThing d.length d

/-- `struct.unpack("<hh", chunk)` of `VertexesParser.parse`. -/
def mkVertex (c : List Nat) : Option Vertex :=
  some ⟨s16at c 0, s16at c 2⟩

/-- `VertexesParser.parse` (RECORD_SIZE 4). -/
def vertexesParse (d : List Nat) : Option (List Vertex) :=
  if d.length % 4 ≠ 0 then none else parseFix 4 mkVertex d.length d

/-- `struct.unpack("<HHHHHHH", chunk)` of `LinedefsParser.parse`. -/
def mkLinedef (c : List Nat) : Option Linedef :=
  some ⟨u16at c 0, u16at c 2, u16at c 4, u16at c 6, u16at c 8,
        u16at c 10, u16at c 12⟩

/-- `LinedefsParser.parse` (RECORD_SIZE 14). -/
def linedefsParse (d : List Nat) : Option (List Linedef) :=
  if d.length % 14 ≠ 0 then none else parseFix 14 mkLinedef d.length d

/-- `struct.unpack("<hh8s8sHHH", chunk)` of `SectorsParser.parse`, with the
NUL-strip and ASCII decode of the two texture name fields. -/
def mkSector (c : List Nat) : Option Sector := do
  let ft ← decodeAscii (rstrip0 ((c.drop 4).take 8))
  let ct ← decodeAscii (rstrip0 ((c.drop 12).take 8))
  pure ⟨s16at c 0, s16at c 2, ft, ct, u16at c 20, u16at c 22, u16at c 24⟩

/-- `SectorsParser.parse` (RECORD_SIZE 26). -/
def sectorsParse (d : List Nat) : Option (List Sector) :=
  if d.length % 26 ≠ 0 then none else parseFix 26 mkSector d.length d

/-- `struct.unpack("<hh8s8s8sH", chunk)` of `SidedefsParser.parse`. -/
def mkSidedef (c : List Nat) : Option Sidedef := do
  let ut ← decodeAscii (rstrip0 ((c.drop 4).take 8))
  let lt ← decodeAscii (rstrip0 ((c.drop 12).take 8))
  let mt ← decodeAscii (rstrip0 ((c.drop 20).take 8))
  pure ⟨s16at c 0, s16at c 2, ut, lt, mt, u16at c 28⟩

/-- `SidedefsParser.parse` (RECORD_SIZE 30). -/
def sidedefsParse (d : List Nat) : Option (List Sidedef) :=
  if d.length % 30 ≠ 0 then none else parseFix 30 mkSidedef d.length d

/-- `struct.unpack("<HHHHHHH", chunk)` of `SegsParser.parse`. -/
def mkSeg (c : List Nat) : Option Seg :=
  some ⟨u16at c 0, u16at c 2, u16at c 4, u16at c 6, u16at c 8,
        u16at c 10, u16at c 12⟩

/-- `SegsParser.parse`: the class only declares HEADER_SIZE 14, so the
upfront check is `len(data) < 14`, not a multiple-of-size check; the
14-byte chunk loop still fails on a short final chunk. -/
def segsParse (d : List Nat) : Option (List Seg) :=
  if d.length < 14 then none else parseFix 14 mkSeg d.length d

/-- `struct.unpack("<HH", chunk)` of `SubsectorsParser.parse`. -/
def mkSubsector (c : List Nat) : Option Subsector :=
  some ⟨u16at c 0, u16at c 2⟩

/-- `SubsectorsParser.parse` (RECORD_SIZE 4). -/
def ssectorsParse (d : List Nat) : Option (List Subsector) :=
  if d.length % 4 ≠ 0 then none else parseFix 4 mkSubsector d.length d

/-- `struct.unpack("<hhhhhhhhhhhhHH", chunk)` of `NodesParser.parse`. -/
def mkNode (c : List Nat) : Option Node :=
  some ⟨s16at c 0, s16at c 2, s16at c 4, s16at c 6, s16at c 8, s16at c 10,
        s16at c 12, s16at c 14, s16at c 16, s16at c 18, s16at c 20,
        s16at c 22, u16at c 24, u16at c 26⟩

/-- `NodesParser.parse` (RECORD_SIZE 28). -/
def nodesParse (d : List Nat) : Option (List Node) :=
  if d.length % 28 ≠ 0 then none else parseFix 28 mkNode d.length d

/-- `FlatParser.parse`: exactly 4096 bytes, returned verbatim. -/
def flatParse (d : List Nat) : Option (List Nat) :=
  if d.length ≠ 4096 then none else some d

/-- `BlockmapParser.parse`: at least the 8-byte header, of which only the
four uint16 header fields are decoded. -/
def blockmapParse (d : List Nat) : Option (Nat × Nat × Nat × Nat) :=
  if d.length < 8 then none
  else some (u16at d 0, u16at d 2, u16at d 4, u16at d 6)

/-! ## LumpParser: the Linedef encoder

`LinedefsParser.encode` reads `linedef.start_vertex`, `linedef.end_vertex`,
`linedef.flags`, `linedef.special_type`, `linedef.sector_tag`,
`linedef.right_sidedef` and `linedef.left_sidedef`.  The `Linedef`
namedtuple's fields are `start end flags special tag right_side left_side`,
so all accesses except `flags` are dynamic attribute lookups that raise
`AttributeError`.  `linedefAttr` embeds `getattr` on a `Linedef`. -/

/-- Dynamic attribute lookup on a `Linedef` namedtuple: only the declared
field names resolve, anything else raises `AttributeError` (`none`). -/
def linedefAttr (l : Linedef) (a : String) : Option Nat :=
  match a with
  | "start" => some l.start
  | "end" => some l.end_
  | "flags" => some l.flags
  | "special" => some l.special
  | "tag" => some l.tag
  | "right_side" => some l.right_side
  | "left_side" => some l.left_side
  | _ => none

/-- `LinedefsParser.encode`, with each Python attribute access embedded
through `linedefAttr` under the name the source spells. -/
def linedefsEncode (ls : List Linedef) : Option (List Nat) := do
  let parts ← ls.mapM (fun l => do
    let v1 ← linedefAttr l "start_vertex"
    let v2 ← linedefAttr l "end_vertex"
    let v3 ← linedefAttr l "flags"
    let v4 ← linedefAttr l "special_type"
    let v5 ← linedefAttr l "sector_tag"
    let v6 ← linedefAttr l "right_sidedef"
    let v7 ← linedefAttr l "left_sidedef"
    let b1 ← pack16 v1
    let b2 ← pack16 v2
    let b3 ← pack16 v3
    let b4 ← pack16 v4
    let b5 ← pack16 v5
    let b6 ← pack16 v6
    let b7 ← pack16 v7
    pure (b1 ++ b2 ++ b3 ++ b4 ++ b5 ++ b6 ++ b7))
  pure parts.flatten

/-! ## LumpParser: the texture codec -/

/-- `struct.pack("<8s", name.encode("ascii").ljust(8, b"\x00"))`: ASCII
encode, pad to 8 with NULs, truncate to 8 (the `8s` format truncates). -/
def pack8s (s : String) : Option (List Nat) :=
  let b := strBytes s
  if b.all (fun x => x < 128) then
    some ((b ++ List.replicate (8 - b.length) 0).take 8)
  else none

/-- One 12-byte patch record as packed by `TextureParser.encode`
(`"<HHHHHH"` with a trailing zero field). -/
def packPatch (p : Patch) : Option (List Nat) := do
  let b1 ← pack16 p.originx
  let b2 ← pack16 p.originy
  let b3 ← pack16 p.patch_num
  let b4 ← pack16 p.stepdir
  let b5 ← pack16 p.colormap
  let b6 ← pack16 0
  pure (b1 ++ b2 ++ b3 ++ b4 ++ b5 ++ b6)

/-- One texture block: the 20-byte `"<8sIHHHH"` header followed by the
patch records, as appended to `texture_data` by `TextureParser.encode`. -/
def texBlock (t : Texture) : Option (List Nat) := do
  let nm ← pack8s t.name
  let z1 ← pack32 0
  let w ← pack16 t.width
  let h ← pack16 t.height
  let z2 ← pack16 0
  let np ← pack16 t.patches.length
  let ps ← t.patches.mapM packPatch
  pure (nm ++ z1 ++ w ++ h ++ z2 ++ np ++ ps.flatten)

/-- `TextureParser.encode`.  The running state mirrors the Python locals
`(texture_data, offsets, current_offset)`; note that after appending a
block the source advances `current_offset` by `len(texture_data)` — the
length of the whole cumulative buffer — rather than by the length of the
block just placed. -/
def textureEncode (ts : List Texture) : Option (List Nat) := do
  let tableSize := 4 + 4 * ts.length
  let (texture_data, offsets, _) ← ts.foldlM
    (fun (st : List Nat × List Nat × Nat) t => do
      let (td, offs, cur) := st
      let blk ← texBlock t
      let td2 := td ++ blk
      pure (td2, offs ++ [cur], cur + td2.length))
    ([], [], tableSize)
  let cnt ← pack32 ts.length
  let offBytes ← offsets.mapM pack32
  pure (cnt ++ offBytes.flatten ++ texture_data)

/-- One `"<HHHHHH"` patch row of `TextureParser.parse`; the unpack needs
exactly 12 bytes, and the last value is dropped. -/
def parsePatchRow (b : List Nat) : Option Patch :=
  if b.length = 12 then
    some ⟨u16at b 0, u16at b 2, u16at b 4, u16at b 6, u16at b 8⟩
  else none

/-- The texture block read at absolute offset `off` of the lump by
`TextureParser.parse`: 20-byte `"<8sIHHHH"` header (width at byte 12,
height at 14, patch count at 18), then the patch rows from byte 20. -/
def parseTexAt (data : List Nat) (off : Nat) : Option Texture := do
  let td := data.drop off
  let hd := td.take 20
  if hd.length = 20 then do
    let name ← decodeAscii (rstrip0 (hd.take 8))
    let patches ← (List.range (u16at hd 18)).mapM (fun j =>
      parsePatchRow ((td.drop (20 + 12 * j)).take 12))
    pure ⟨name, u16at hd 12, u16at hd 14, patches⟩
  else none

/-- `TextureParser.parse`: uint32 texture count, `count` uint32 absolute
offsets (the unpack of the offset table needs exactly `4*count` bytes),
then one texture block per offset. -/
def textureParse (data : List Nat) : Option (List Texture) := do
  let h := data.take 4
  if h.length = 4 then do
    let num := unpack32 h
    let ob := (data.drop 4).take (4 * num)
    if ob.length = 4 * num then
      ((List.range num).map (fun i => unpack32 ((ob.drop (4 * i)).take 4))).mapM
        (parseTexAt data)
    else none
  else none

/-! ## Helper lemmas -/

lemma findLumpIndex_append_left (A r : List Lump) (n : String)
    (h : n ∈ A.map Lump.name) :
    ∃ i, findLumpIndex A n = some i ∧ i < A.length ∧
      findLumpIndex (A ++ r) n = some i := by
  induction A with
  | nil => simp at h
  | cons a A ih =>
    by_cases ha : a.name = n
    · exact ⟨0, by simp [findLumpIndex, ha], Nat.succ_pos _,
        by simp [findLumpIndex, ha]⟩
    · have h' : n ∈ A.map Lump.name := by
        rw [List.map_cons] at h
        rcases List.mem_cons.mp h with h0 | h0
        · exact absurd h0.symm ha
        · exact h0
      obtain ⟨i, h1, h2, h3⟩ := ih h'
      refine ⟨i + 1, ?_, by simpa using Nat.succ_lt_succ h2, ?_⟩
      · simp [findLumpIndex, ha, h1]
      · simp [findLumpIndex, ha, h3]

lemma findLumpIndex_append_right (A r : List Lump) (n : String)
    (h : n ∉ A.map Lump.name) :
    findLumpIndex (A ++ r) n =
      (findLumpIndex r n).map (fun i => i + A.length) := by
  induction A with
  | nil => cases hfr : findLumpIndex r n <;> simp [hfr]
  | cons a A ih =>
    have ha : ¬ a.name = n := by
      intro e
      exact h (by simp [e])
    have h' : n ∉ A.map Lump.name := by
      intro m
      exact h (by simp [m])
    rw [List.cons_append]
    simp only [findLumpIndex, ha, if_false, ih h']
    cases findLumpIndex r n with
    | none => simp
    | some i => simp [Nat.add_assoc]

lemma ensureMarkers_of_found (l : List Lump) (st en : String) (s e : Nat)
    (hs : findLumpIndex l st = some s) (he : findLumpIndex l en = some e)
    (hse : s ≤ e) :
    ensureMarkers l st en = some (l, s, e) := by
  have hlt : ¬ e < s := Nat.not_lt.mpr hse
  simp [ensureMarkers, hs, he, hlt]

lemma insertLump_append (A r : List Lump) (n : String) (d : List Nat)
    (hn : n.length ≤ 8) :
    insertLump (A ++ r) A.length n d = some (A ++ ⟨n, d⟩ :: r) := by
  have h8 : ¬ 8 < n.length := Nat.not_lt.mpr hn
  simp [insertLump, insertPy, h8, List.take_left, List.drop_left]

/-- One `import_sprite` call on an archive split as `A ++ e :: B`, where
`e` is the archive's first `S_END` and `S_START` occurs in `A`: the new
lump lands at the end of `A`, directly before `e`. -/
lemma importSprite_step (A B : List Lump) (e : Lump) (n : String)
    (d : List Nat) (he : e.name = "S_END") (hA : "S_END" ∉ A.map Lump.name)
    (hS : "S_START" ∈ A.map Lump.name) (hn : n.length ≤ 8)
    (hd : validateSprite d = true) :
    importSprite (A ++ e :: B) n d = some (A ++ ⟨n, d⟩ :: e :: B) := by
  obtain ⟨i, _, hiA, hifull⟩ := findLumpIndex_append_left A (e :: B) _ hS
  have hend : findLumpIndex (A ++ e :: B) "S_END" = some A.length := by
    rw [findLumpIndex_append_right A (e :: B) _ hA]
    simp [findLumpIndex, he]
  have hmark : ensureMarkers (A ++ e :: B) "S_START" "S_END" =
      some (A ++ e :: B, i, A.length) :=
    ensureMarkers_of_found _ _ _ _ _ hifull hend (Nat.le_of_lt hiA)
  have hval : ¬ validateSprite d = false := by simp [hd]
  have h8 : ¬ 8 < n.length := Nat.not_lt.mpr hn
  simp only [importSprite, if_neg hval, if_neg h8, hmark, Option.bind_some]
  exact insertLump_append A (e :: B) n d hn

lemma parseFix_none_of_not_dvd {α : Type} (k : Nat) (hk : 0 < k)
    (mk : List Nat → Option α) :
    ∀ (fuel : Nat) (d : List Nat), d.length ≤ fuel → d.length % k ≠ 0 →
      parseFix k mk fuel d = none := by
  intro fuel
  induction fuel with
  | zero =>
    intro d hd hm
    cases d with
    | nil => simp at hm
    | cons x xs => simp at hd
  | succ fuel ih =>
    intro d hd hm
    cases d with
    | nil => simp at hm
    | cons x xs =>
      simp only [parseFix]
      by_cases hlen : ((x :: xs).take k).length = k
      · rw [if_pos hlen]
        have hk2 : k ≤ (x :: xs).length := by
          rw [List.length_take] at hlen
          omega
        cases hmk : mk ((x :: xs).take k) with
        | none => rfl
        | some r =>
          have hrec : parseFix k mk fuel ((x :: xs).drop k) = none := by
            apply ih
            · rw [List.length_drop]
              have := List.length_cons x xs
              omega
            · rw [List.length_drop]
              intro h0
              apply hm
              calc (x :: xs).length % k
                  = ((x :: xs).length - k + k) % k := by
                    rw [Nat.sub_add_cancel hk2]
                _ = ((x :: xs).length - k) % k := Nat.add_mod_right _ _
                _ = 0 := h0
          rw [hrec]
      · rw [if_neg hlen]

/-! ## Claim theorems -/

/-- C1 (code bug in `save`): the claim says saving any in-memory lump
list, loading the file and re-saving yields byte-identical output.  The
code violates it: `save` records `12 + 16*count` as the directory offset
but writes the payloads there and the directory after them, so for the
single lump "A" with sixteen zero payload bytes the reload misparses the
payload as the directory (yielding one empty, unnamed lump) and the
re-save produces a 44-byte file instead of the original 60-byte file. -/
theorem save_reload_resave_differs :
    ((saveWad (strBytes "PWAD") [⟨"A", List.replicate 16 0⟩]).bind readWad) =
      some (strBytes "PWAD", [⟨"", []⟩]) ∧
    ((saveWad (strBytes "PWAD") [⟨"A", List.replicate 16 0⟩]).bind fun f =>
      (readWad f).bind fun r => saveWad r.1 r.2) ≠
      saveWad (strBytes "PWAD") [⟨"A", List.replicate 16 0⟩] ∧
    (saveWad (strBytes "PWAD") [⟨"A", List.replicate 16 0⟩]).map
      List.length = some 60 ∧
    ((saveWad (strBytes "PWAD") [⟨"A", List.replicate 16 0⟩]).bind fun f =>
      (readWad f).bind fun r => saveWad r.1 r.2).map List.length =
      some 44 := by
  decide

/-- C2 (code bug in `save`): the claim says payloads are written
contiguously immediately after the 12-byte header and the directory then
begins at `12 + 16*count` as recorded in the header.  The code instead
starts the payload block at `12 + 16*count`, leaving a `16*count`-byte
zero gap after the header, and writes the directory after the payloads:
for one lump "A" with payload `[7]` the file is header, 16 zero bytes,
the payload byte at offset 28 (the recorded directory offset), and the
directory entry at offsets 29–44. -/
theorem save_directory_after_payload_gap :
    saveWad (strBytes "PWAD") [⟨"A", [7]⟩] =
      some ([80, 87, 65, 68] ++ [1, 0, 0, 0] ++ [28, 0, 0, 0] ++
        List.replicate 16 0 ++ [7] ++
        [28, 0, 0, 0, 1, 0, 0, 0, 65, 0, 0, 0, 0, 0, 0, 0]) := by
  decide

/-- C3 (code bug in `ensure_markers`): the claim says a misordered pair
is repaired by removing exactly the two marker lumps and re-appending
both.  The code pops the stale start index after the first pop shifted
the list: on `[A, S_END, S_START, B]` it removes `S_END` and `B`, leaving
the old `S_START` in place next to the re-appended pair, and on
`[S_END, S_START]` the second pop raises IndexError. -/
theorem ensureMarkers_misordered_removes_wrong_lump :
    ensureMarkers [⟨"A", []⟩, ⟨"S_END", []⟩, ⟨"S_START", []⟩, ⟨"B", []⟩]
        "S_START" "S_END" =
      some ([⟨"A", []⟩, ⟨"S_START", []⟩, ⟨"S_START", []⟩, ⟨"S_END", []⟩],
        2, 3) ∧
    ensureMarkers [⟨"S_END", []⟩, ⟨"S_START", []⟩] "S_START" "S_END" =
      none := by
  decide

/-- C4 (code bug in `LinedefsParser.encode`): the claim says
`decode(encode(R)) == R` for every fixed-size record kind including
Linedef.  The Linedef encoder reads attributes (`start_vertex`,
`special_type`, `sector_tag`, `right_sidedef`, `left_sidedef`) that the
`Linedef` namedtuple does not define, so encoding any nonempty record
list raises AttributeError: here decode accepts a 14-byte record but
encoding it back fails. -/
theorem linedefs_encode_attribute_error :
    linedefsParse (List.replicate 14 0) = some [⟨0, 0, 0, 0, 0, 0, 0⟩] ∧
    linedefAttr ⟨0, 0, 0, 0, 0, 0, 0⟩ "start_vertex" = none ∧
    linedefsEncode [⟨0, 0, 0, 0, 0, 0, 0⟩] = none := by
  decide

/-- C5 (code bug in `TextureParser.encode`): the claim says each
texture's offset is the prefix sum of the already-serialized blocks, and
that the single-texture WALL1 round trip works.  The WALL1 round trip
does hold, but the encoder advances `current_offset` by the cumulative
buffer length, so for three 20-byte patch-less textures it records
offsets 16, 36, 76 instead of the prefix sums 16, 36, 56; the third
offset points at the end of the 76-byte lump and decoding fails. -/
theorem texture_encode_offsets_cumulative :
    ((textureEncode [⟨"WALL1", 64, 128, [⟨0, 0, 3, 0, 0⟩, ⟨32, 0, 7, 0, 0⟩]⟩]).bind
        textureParse) =
      some [⟨"WALL1", 64, 128, [⟨0, 0, 3, 0, 0⟩, ⟨32, 0, 7, 0, 0⟩]⟩] ∧
    (textureEncode [⟨"A", 1, 1, []⟩, ⟨"B", 1, 1, []⟩, ⟨"C", 1, 1, []⟩]).map
        (fun e => e.take 16) =
      some [3, 0, 0, 0, 16, 0, 0, 0, 36, 0, 0, 0, 76, 0, 0, 0] ∧
    (textureEncode [⟨"A", 1, 1, []⟩, ⟨"B", 1, 1, []⟩, ⟨"C", 1, 1, []⟩]).map
        List.length = some 76 ∧
    ((textureEncode [⟨"A", 1, 1, []⟩, ⟨"B", 1, 1, []⟩, ⟨"C", 1, 1, []⟩]).bind
        textureParse) = none := by
  decide

/-- C6: for every fixed-size record kind, a payload whose length is not
a multiple of the record size makes decode fail (the upfront size check
for most kinds; for SEGS, which only checks the 14-byte minimum, the
short final chunk makes the record unpack fail; for FLAT any length
other than 4096 is rejected). -/
theorem fixed_record_parse_rejects_non_multiple (d : List Nat) :
    (d.length % 10 ≠ 0 → thingsParse d = none) ∧
    (d.length % 4 ≠ 0 → vertexesParse d = none) ∧
    (d.length % 14 ≠ 0 → linedefsParse d = none) ∧
    (d.length % 30 ≠ 0 → sidedefsParse d = none) ∧
    (d.length % 26 ≠ 0 → sectorsParse d = none) ∧
    (d.length % 14 ≠ 0 → segsParse d = none) ∧
    (d.length % 4 ≠ 0 → ssectorsParse d = none) ∧
    (d.length % 28 ≠ 0 → nodesParse d = none) ∧
    (d.length % 4096 ≠ 0 → flatParse d = none) := by
  refine ⟨fun h => ?_, fun h => ?_, fun h => ?_, fun h => ?_, fun h => ?_,
    fun h => ?_, fun h => ?_, fun h => ?_, fun h => ?_⟩
  · rw [thingsParse, if_pos h]
  · rw [vertexesParse, if_pos h]
  · rw [linedefsParse, if_pos h]
  · rw [sidedefsParse, if_pos h]
  · rw [sectorsParse, if_pos h]
  · rw [segsParse]
    by_cases hl : d.length < 14
    · rw [if_pos hl]
    · rw [if_neg hl]
      exact parseFix_none_of_not_dvd 14 (by omega) mkSeg d.length d le_rfl h
  · rw [ssectorsParse, if_pos h]
  · rw [nodesParse, if_pos h]
  · have h4096 : d.length ≠ 4096 := by
      intro e
      rw [e] at h
      exact h rfl
    rw [flatParse, if_pos h4096]

/-- Witness for C6: a 5-byte Vertex payload and a 15-byte Seg payload
are both rejected. -/
theorem fixed_record_parse_rejects_non_multiple_witness :
    vertexesParse [0, 0, 0, 0, 0] = none ∧
    segsParse (List.replicate 15 0) = none :=
  ⟨(fixed_record_parse_rejects_non_multiple [0, 0, 0, 0, 0]).2.1 (by decide),
   (fixed_record_parse_rejects_non_multiple
      (List.replicate 15 0)).2.2.2.2.2.1 (by decide)⟩

/-- C7: on an archive of the shape `A ++ S_END-lump :: B` whose `S_START`
occurs in `A` (so the markers exist in correct order), three successive
`import_sprite` calls with valid payloads leave SPR1, SPR2, SPR3 in call
order immediately before the end marker. -/
theorem importSprite_three_in_order (A B : List Lump) (e : Lump)
    (d1 d2 d3 : List Nat) (he : e.name = "S_END")
    (hA : "S_END" ∉ A.map Lump.name) (hS : "S_START" ∈ A.map Lump.name)
    (h1 : validateSprite d1 = true) (h2 : validateSprite d2 = true)
    (h3 : validateSprite d3 = true) :
    ((importSprite (A ++ e :: B) "SPR1" d1).bind fun l2 =>
      (importSprite l2 "SPR2" d2).bind fun l3 =>
        importSprite l3 "SPR3" d3) =
      some (A ++ ⟨"SPR1", d1⟩ :: ⟨"SPR2", d2⟩ :: ⟨"SPR3", d3⟩ :: e :: B) := by
  have hA2 : "S_END" ∉ (A ++ [(⟨"SPR1", d1⟩ : Lump)]).map Lump.name := by
    intro m
    rw [List.map_append] at m
    rcases List.mem_append.mp m with m | m
    · exact hA m
    · simp only [List.map_cons, List.map_nil, List.mem_singleton] at m
      exact absurd m (by decide)
  have hS2 : "S_START" ∈ (A ++ [(⟨"SPR1", d1⟩ : Lump)]).map Lump.name := by
    rw [List.map_append]
    exact List.mem_append.mpr (Or.inl hS)
  have hA3 : "S_END" ∉
      ((A ++ [(⟨"SPR1", d1⟩ : Lump)]) ++ [(⟨"SPR2", d2⟩ : Lump)]).map
        Lump.name := by
    intro m
    rw [List.map_append] at m
    rcases List.mem_append.mp m with m | m
    · exact hA2 m
    · simp only [List.map_cons, List.map_nil, List.mem_singleton] at m
      exact absurd m (by decide)
  have hS3 : "S_START" ∈
      ((A ++ [(⟨"SPR1", d1⟩ : Lump)]) ++ [(⟨"SPR2", d2⟩ : Lump)]).map
        Lump.name := by
    rw [List.map_append]
    exact List.mem_append.mpr (Or.inl hS2)
  have t1 := importSprite_step A B e "SPR1" d1 he hA hS (by decide) h1
  have t2 := importSprite_step (A ++ [⟨"SPR1", d1⟩]) B e "SPR2" d2 he hA2
    hS2 (by decide) h2
  have t3 := importSprite_step ((A ++ [⟨"SPR1", d1⟩]) ++ [⟨"SPR2", d2⟩]) B e
    "SPR3" d3 he hA3 hS3 (by decide) h3
  rw [t1]
  have e2 : A ++ (⟨"SPR1", d1⟩ : Lump) :: e :: B =
      (A ++ [⟨"SPR1", d1⟩]) ++ e :: B := by simp
  have e3 : (A ++ [(⟨"SPR1", d1⟩ : Lump)]) ++ (⟨"SPR2", d2⟩ : Lump) :: e :: B =
      ((A ++ [⟨"SPR1", d1⟩]) ++ [⟨"SPR2", d2⟩]) ++ e :: B := by simp
  show ((importSprite (A ++ ⟨"SPR1", d1⟩ :: e :: B) "SPR2" d2).bind fun l3 =>
    importSprite l3 "SPR3" d3) = _
  rw [e2, t2]
  show importSprite ((A ++ [⟨"SPR1", d1⟩]) ++ ⟨"SPR2", d2⟩ :: e :: B)
    "SPR3" d3 = _
  rw [e3, t3]
  simp

/-- Witness for C7: the three imports on the two-marker archive. -/
theorem importSprite_three_in_order_witness :
    ((importSprite [⟨"S_START", []⟩, ⟨"S_END", []⟩] "SPR1"
        [1, 0, 1, 0, 0, 0, 0, 0, 9]).bind fun l2 =>
      (importSprite l2 "SPR2" [1, 0, 1, 0, 0, 0, 0, 0, 9]).bind fun l3 =>
        importSprite l3 "SPR3" [1, 0, 1, 0, 0, 0, 0, 0, 9]) =
      some [⟨"S_START", []⟩, ⟨"SPR1", [1, 0, 1, 0, 0, 0, 0, 0, 9]⟩,
        ⟨"SPR2", [1, 0, 1, 0, 0, 0, 0, 0, 9]⟩,
        ⟨"SPR3", [1, 0, 1, 0, 0, 0, 0, 0, 9]⟩, ⟨"S_END", []⟩] :=
  importSprite_three_in_order [⟨"S_START", []⟩] [] ⟨"S_END", []⟩
    [1, 0, 1, 0, 0, 0, 0, 0, 9] [1, 0, 1, 0, 0, 0, 0, 0, 9]
    [1, 0, 1, 0, 0, 0, 0, 0, 9] rfl (by decide) (by decide) (by decide)
    (by decide) (by decide)

/-- C8: when both `S_START` and `S_END` are present with the start index
at or before the end index, `ensure_markers` returns those indices and
leaves the lump list unchanged, and so does calling it twice. -/
theorem ensureMarkers_idempotent (l : List Lump) (s e : Nat)
    (hs : findLumpIndex l "S_START" = some s)
    (he : findLumpIndex l "S_END" = some e) (hse : s ≤ e) :
    ensureMarkers l "S_START" "S_END" = some (l, s, e) ∧
    ((ensureMarkers l "S_START" "S_END").bind fun r =>
      ensureMarkers r.1 "S_START" "S_END") = some (l, s, e) := by
  have h1 := ensureMarkers_of_found l "S_START" "S_END" s e hs he hse
  refine ⟨h1, ?_⟩
  rw [h1]
  exact h1

/-- Witness for C8 on a two-lump archive. -/
theorem ensureMarkers_idempotent_witness :
    ensureMarkers [⟨"S_START", []⟩, ⟨"S_END", []⟩] "S_START" "S_END" =
      some ([⟨"S_START", []⟩, ⟨"S_END", []⟩], 0, 1) ∧
    ((ensureMarkers [⟨"S_START", []⟩, ⟨"S_END", []⟩] "S_START"
        "S_END").bind fun r => ensureMarkers r.1 "S_START" "S_END") =
      some ([⟨"S_START", []⟩, ⟨"S_END", []⟩], 0, 1) :=
  ensureMarkers_idempotent [⟨"S_START", []⟩, ⟨"S_END", []⟩] 0 1
    (by decide) (by decide) (by decide)

/-- C9 (counterexample): a payload that passes `validate_sprite` and a
1-character name do not guarantee the insertion happens — on an archive
whose markers are misordered with `S_START` last, `ensure_markers` raises
before the insert, so `import_sprite` fails despite the valid payload. -/
theorem importSprite_valid_payload_rejected :
    validateSprite [1, 0, 1, 0, 0, 0, 0, 0, 9] = true ∧
    String.length "X" ≤ 8 ∧
    importSprite [⟨"S_END", []⟩, ⟨"S_START", []⟩] "X"
      [1, 0, 1, 0, 0, 0, 0, 0, 9] = none := by
  decide

/-- C9 (amended): `import_sprite` validates before any mutation — the
payload passes exactly when it has at least 8 bytes and at least
`8 + width*height` bytes for the first two little-endian uint16 fields;
a failing payload always yields an error with the lump list untouched;
and a passing payload with a name of at most 8 characters is inserted
immediately before the resolved end marker whenever `ensure_markers`
itself succeeds. -/
theorem importSprite_validation_gate (l l2 : List Lump) (n : String)
    (d : List Nat) (si ei : Nat) :
    (validateSprite d = true ↔ 8 ≤ d.length ∧
      8 + (d.getD 0 0 + 256 * d.getD 1 0) *
        (d.getD 2 0 + 256 * d.getD 3 0) ≤ d.length) ∧
    (validateSprite d = false → importSprite l n d = none) ∧
    (validateSprite d = true → n.length ≤ 8 →
      ensureMarkers l "S_START" "S_END" = some (l2, si, ei) →
      importSprite l n d = some (insertPy l2 ei ⟨n, d⟩)) := by
  refine ⟨?_, fun h => ?_, fun h1 h2 h3 => ?_⟩
  · rw [validateSprite]
    split_ifs with hlt
    · simp only [Bool.false_eq_true, false_iff, not_and]
      intro h8
      omega
    · simp only [decide_eq_true_eq]
      constructor
      · intro hwh
        exact ⟨by omega, hwh⟩
      · intro hconj
        exact hconj.2
  · rw [importSprite, if_pos h]
  · have hv : ¬ validateSprite d = false := by simp [h1]
    have h8 : ¬ 8 < n.length := Nat.not_lt.mpr h2
    rw [importSprite, if_neg hv, if_neg h8]
    show ((ensureMarkers l "S_START" "S_END").bind fun r =>
      insertLump r.1 r.2.2 n d) = _
    rw [h3]
    show insertLump l2 ei n d = _
    rw [insertLump, if_neg h8]

/-- Witness for C9's amended theorem: a valid 1×1 sprite is inserted
before the end marker of a well-formed archive. -/
theorem importSprite_validation_gate_witness :
    importSprite [⟨"S_START", []⟩, ⟨"S_END", []⟩] "SPR1"
      [1, 0, 1, 0, 0, 0, 0, 0, 9] =
    some (insertPy [⟨"S_START", []⟩, ⟨"S_END", []⟩] 1
      ⟨"SPR1", [1, 0, 1, 0, 0, 0, 0, 0, 9]⟩) :=
  (importSprite_validation_gate [⟨"S_START", []⟩, ⟨"S_END", []⟩]
    [⟨"S_START", []⟩, ⟨"S_END", []⟩] "SPR1" [1, 0, 1, 0, 0, 0, 0, 0, 9]
    0 1).2.2 (by decide) (by decide) (by decide)

/-- C10: constructing the manager for a nonexistent path builds exactly
the 17 zero-length lumps MAP01, the ten map geometry lumps, and the
F/T/S marker pairs, in that order, with header tag "PWAD". -/
theorem createEmptyWad_contents :
    createEmptyWad = some (strBytes "PWAD",
      [⟨"MAP01", []⟩, ⟨"THINGS", []⟩, ⟨"LINEDEFS", []⟩, ⟨"SIDEDEFS", []⟩,
       ⟨"VERTEXES", []⟩, ⟨"SEGS", []⟩, ⟨"SSECTORS", []⟩, ⟨"NODES", []⟩,
       ⟨"SECTORS", []⟩, ⟨"REJECT", []⟩, ⟨"BLOCKMAP", []⟩, ⟨"F_START", []⟩,
       ⟨"F_END", []⟩, ⟨"T_START", []⟩, ⟨"T_END", []⟩, ⟨"S_START", []⟩,
       ⟨"S_END", []⟩]) ∧
    strBytes "PWAD" = [80, 87, 65, 68] := by
  decide

end DoomUtils
